import Mathlib

/-!
Verification of the Modin tutorial notebook
`examples/tutorial/tutorial_notebooks/introduction/exercise_3.ipynb`.

The notebook's own cells (fixture construction, timing cells, the
registration cells, `kurtosis_func`, and the evaluation cell) are embedded
directly from the source.  The host library's machinery (the
query-compiler layer, `Reduction.register`, `_reduce_dimension`,
`_to_pandas`, the default-to-pandas fallback) and the pandas aggregates
(`kurtosis`, `mad`) are not part of the given sources; they are modelled
from the specification, and each such definition says so in its doc
comment.  Wall-clock readings of `time.time()` are modelled as rational
numbers supplied by an abstract clock.
-/

namespace Exercise3

/-- A two-dimensional numeric array (the model of a numpy `ndarray` of
nonnegative integers): a shape together with an entry function. -/
structure NDArray where
  rows : Nat
  cols : Nat
  entry : Nat → Nat → Nat

/-- Modelled from the spec: `np.random.randint(lo, hi, size=(rows, cols))`
draws each entry from the half-open interval `[lo, hi)`; the randomness
source is an abstract generator `g`. -/
def npRandint (lo hi rows cols : Nat) (g : Nat → Nat) : NDArray :=
  { rows := rows, cols := cols,
    entry := fun i j => lo + g (i * cols + j) % (hi - lo) }

/-- Modelled from the spec: a pandas `DataFrame` built from an array —
the values together with a column-label function (`RangeIndex` labels by
default). -/
structure PandasDataFrame where
  values : NDArray
  colLabel : Nat → String

/-- Modelled from the spec: `pandas.DataFrame(arr)` — default integer
column labels. -/
def pandasOfArray (a : NDArray) : PandasDataFrame :=
  { values := a, colLabel := fun j => toString j }

/-- Modelled from the spec: `DataFrame.add_prefix(p)` — prepend `p` to
every column label, leaving the values untouched. -/
def PandasDataFrame.addPre (d : PandasDataFrame) (p : String) : PandasDataFrame :=
  { values := d.values, colLabel := fun j => p ++ d.colLabel j }

/-- A pandas `Series` (the shape of a column-wise aggregate's result):
its index labels paired with rational values, in column order. -/
abbrev PSeries := List (String × Rat)

/-- The values of column `j` of a dataframe, as rationals. -/
def colVals (d : PandasDataFrame) (j : Nat) : List Rat :=
  (List.range d.values.rows).map (fun i => ((d.values.entry i j : Nat) : Rat))

/-- Arithmetic mean of a list of rationals (0 on the empty list,
matching `Rat` division by zero). -/
def listMean (xs : List Rat) : Rat := xs.sum / (xs.length : Rat)

/-- Modelled from the spec: the column-wise mean absolute deviation
underlying `pandas.DataFrame.mad` — the mean of absolute deviations from
the column mean. -/
def listMad (xs : List Rat) : Rat :=
  ((xs.map (fun x => |x - listMean xs|)).sum) / (xs.length : Rat)

/-- Modelled from the spec: `pandas.DataFrame.mad()` — the per-column
mean absolute deviation, one labelled entry per column. -/
def madDF (d : PandasDataFrame) : PSeries :=
  (List.range d.values.cols).map (fun j => (d.colLabel j, listMad (colVals d j)))

/-- Modelled from the spec: the unbiased sample kurtosis of a column,
as computed by `pandas.DataFrame.kurtosis` (Fisher definition with bias
correction); degenerate lengths yield 0 in this rational model. -/
def listKurt (xs : List Rat) : Rat :=
  if xs.length < 4 then 0 else
    let n : Rat := (xs.length : Rat)
    let m := listMean xs
    let m2 := (xs.map (fun x => (x - m) ^ 2)).sum
    let m4 := (xs.map (fun x => (x - m) ^ 4)).sum
    n * (n + 1) / ((n - 1) * (n - 2) * (n - 3)) * m4 / ((m2 / (n - 1)) ^ 2)
      - 3 * (n - 1) ^ 2 / ((n - 2) * (n - 3))

/-- The keyword arguments a query-compiler reduction receives
(`axis` already resolved to a number, the pandas keywords, and any
extra `**kwargs` as key/value strings). -/
structure QCArgs where
  axis : Nat
  skipna : Option Bool
  level : Option Nat
  numeric_only : Option Bool
  kwargs : List (String × String)

/-- A pandas aggregate function of the kind `Reduction.register` takes:
it collapses a pandas dataframe to a series, given keyword arguments. -/
abbrev AggFun := PandasDataFrame → QCArgs → PSeries

/-- Modelled from the spec: `pandas.DataFrame.kurtosis` — the per-column
unbiased kurtosis, one labelled entry per column. -/
def pandas_DataFrame_kurtosis : AggFun :=
  fun d _args => (List.range d.values.cols).map
    (fun j => (d.colLabel j, listKurt (colVals d j)))

/-- Modelled from the spec: a value of the host library's query-compiler
layer — either a compiler over pandas data, a compiler wrapping an
already computed series, or the pending result of a registered
distributed reduction. -/
inductive QCVal where
  | ofFrame (d : PandasDataFrame) : QCVal
  | ofSeries (s : PSeries) : QCVal
  | reduced (f : AggFun) (self : QCVal) (args : QCArgs) : QCVal

/-- Modelled from the spec: materializing a frame-shaped query compiler
back to pandas data. -/
def materializeFrame : QCVal → Option PandasDataFrame
  | .ofFrame d => some d
  | _ => none

/-- Modelled from the spec: materializing a series-shaped query compiler
locally — a pending reduction is executed on the pandas data it holds. -/
def materializeSeries : QCVal → PSeries
  | .ofSeries s => s
  | .ofFrame _ => []
  | .reduced f self args =>
      match materializeFrame self with
      | some d => f d args
      | none => []

/-- A method on query-compiler instances, as stored in the
`PandasQueryCompiler` class attribute table. -/
abbrev QCMethod := QCVal → QCArgs → QCVal

/-- A Python class attribute table: attribute names to values. -/
def Table (α : Type) := String → Option α

/-- Python attribute assignment `C.name = v`: the table maps `name` to
`v` and every other name as before. -/
def setAttr {α : Type} (t : Table α) (name : String) (v : α) : Table α :=
  fun k => if k = name then some v else t k

/-- Python method invocation `instance.name(args)`: look the attribute up
in the class table and apply it to the instance. -/
def callMethod {α β γ : Type} (t : Table (α → β → γ)) (name : String)
    (self : α) (args : β) : Option γ :=
  (t name).map (fun m => m self args)

/-- Modelled from the spec: `Reduction.register` — the classmethod of the
algebra's `Reduction` operator that turns an existing pandas aggregate
into a query-compiler method applying it as a distributed reduction. -/
def ReductionRegister (f : AggFun) : QCMethod :=
  fun self args => QCVal.reduced f self args

/-- Modelled from the spec: a distributed Modin dataframe — a thin
user-facing wrapper around its query compiler. -/
structure ModinDF where
  qc : QCVal

/-- Modelled from the spec: the distributed objects of the Modin API —
a `modin.pandas.Series`, a `modin.pandas.DataFrame`, or some other
non-distributed value. -/
inductive ModinObj where
  | series (qc : QCVal) : ModinObj
  | frame (qc : QCVal) : ModinObj
  | other : ModinObj

/-- `isinstance(o, pd.Series)` for the distributed series type. -/
def isSeriesB : ModinObj → Bool
  | .series _ => true
  | _ => false

/-- Modelled from the spec: `Series._to_pandas()` — materialize a
distributed series locally as a plain pandas series. -/
def toPandasSeries : ModinObj → PSeries
  | .series qc => materializeSeries qc
  | _ => []

/-- Modelled from the spec: constructing a Modin dataframe from an
array (`pd.DataFrame(arr)`), wrapping a query compiler over the
corresponding pandas data. -/
def ModinDF.ofArray (a : NDArray) : ModinDF :=
  ⟨QCVal.ofFrame (pandasOfArray a)⟩

/-- Modelled from the spec: `add_prefix` on a Modin dataframe — relabel
the columns of the underlying pandas data. -/
def ModinDF.addPre (self : ModinDF) (p : String) : ModinDF :=
  match self.qc with
  | .ofFrame d => ⟨QCVal.ofFrame (d.addPre p)⟩
  | q => ⟨q⟩

/-- Modelled from the spec: `_to_pandas` on a Modin dataframe —
materialize the partitioned data as a single pandas dataframe. -/
def ModinDF.to_pandas (self : ModinDF) : PandasDataFrame :=
  (materializeFrame self.qc).getD (pandasOfArray ⟨0, 0, fun _ _ => 0⟩)

/-- Modelled from the spec: `_reduce_dimension` — wrap a query-compiler
result in the distributed series type, the reduced-dimension object. -/
def ModinDF.reduce_dimension (_self : ModinDF) (qc : QCVal) : ModinObj :=
  ModinObj.series qc

/-- Modelled from the spec: the host library's fallback for an aggregate
that lacks a native distributed implementation — emit the
`defaulting to pandas` `UserWarning`, convert the Modin dataframe to
pandas, run the pandas operation there, and wrap the result back into a
distributed object.  Returns the warnings emitted alongside the value. -/
def defaultToPandas (opName : String) (op : PandasDataFrame → PSeries)
    (self : ModinDF) : List String × ModinObj :=
  (["`DataFrame." ++ opName ++ "` defaulting to pandas implementation."],
   ModinObj.series (QCVal.ofSeries (op self.to_pandas)))

/-- The keyword arguments of `df.kurtosis()` defaulted as in the pandas
signature (`axis` resolved to 0). -/
def kurtDefaultArgs : QCArgs := ⟨0, none, none, none, []⟩

/-- `df.kurtosis()` on a Modin dataframe: kurtosis has no native
distributed implementation, so the call goes through the
default-to-pandas fallback (notebook cells 2 and 6). -/
def dfKurtosisCall (self : ModinDF) : List String × ModinObj :=
  defaultToPandas "kurtosis" (fun d => pandas_DataFrame_kurtosis d kurtDefaultArgs) self

/-- Cell 12 of the notebook: `kurtosis_func(self, axis=None, skipna=None,
level=None, numeric_only=None, **kwargs)` — default a `None` axis to 0,
call the query compiler's `kurtosis_custom` with all keywords forwarded,
and return the result through `self._reduce_dimension`. -/
def kurtosis_func (t : Table QCMethod) (self : ModinDF) (axis : Option Nat)
    (skipna : Option Bool) (level : Option Nat) (numeric_only : Option Bool)
    (kwargs : List (String × String)) : Option ModinObj :=
  let axis := match axis with
    | none => 0
    | some a => a
  match callMethod t "kurtosis_custom" self.qc
      ⟨axis, skipna, level, numeric_only, kwargs⟩ with
  | none => none
  | some r => some (self.reduce_dimension r)

/-- Cell 4 of the notebook:
`frame_data = np.random.randint(0, 100, size=(2**18, 2**8))`,
over an abstract random generator `g`. -/
def frame_data (g : Nat → Nat) : NDArray :=
  npRandint 0 100 (2 ^ 18) (2 ^ 8) g

/-- Cell 4 of the notebook:
`df = pd.DataFrame(frame_data).add_prefix("col")` — the Modin dataframe. -/
def df (g : Nat → Nat) : ModinDF :=
  (ModinDF.ofArray (frame_data g)).addPre "col"

/-- Cell 5 of the notebook:
`pandas_df = pandas.DataFrame(frame_data).add_prefix("col")` — the
plain pandas baseline over the same `frame_data`. -/
def pandas_df (g : Nat → Nat) : PandasDataFrame :=
  (pandasOfArray (frame_data g)).addPre "col"

/-- The outcome of calling a dataframe method: the warnings it emitted
and the value it returned (`none` when the attribute was missing). -/
structure CallResult where
  warnings : List String
  value : Option ModinObj

/-- The plain keyword arguments of the user-facing kurtosis signature
(`axis` not yet defaulted). -/
structure KW where
  axis : Option Nat
  skipna : Option Bool
  level : Option Nat
  numeric_only : Option Bool
  kwargs : List (String × String)

/-- A method on Modin dataframes as stored in the `pd.DataFrame` class
attribute table; it reads the current `PandasQueryCompiler` table to
resolve query-compiler methods dynamically. -/
abbrev DFMethod := Table QCMethod → ModinDF → KW → CallResult

/-- The pre-existing `DataFrame.kurtosis` method: it defaults to the
pandas implementation, emitting the `UserWarning`. -/
def dfKurtosisMethod : DFMethod := fun _t self _kw =>
  let (w, o) := dfKurtosisCall self
  ⟨w, some o⟩

/-- The `kurtosis_custom` method installed on `pd.DataFrame` in cell 12:
the registered wrapper `kurtosis_func`, emitting no warning. -/
def dfKurtosisCustomMethod : DFMethod := fun t self kw =>
  ⟨[], kurtosis_func t self kw.axis kw.skipna kw.level kw.numeric_only kw.kwargs⟩

/-- The state of the Python session the notebook cells act on: the
fixture variables and the two class attribute tables the registration
cells modify. -/
structure NBState where
  frame_data : NDArray
  df : ModinDF
  pandas_df : PandasDataFrame
  qcT : Table QCMethod
  dfT : Table DFMethod

/-- The `pd.DataFrame` class table before the notebook runs: `kurtosis`
resolves to the default-to-pandas implementation and `kurtosis_custom`
does not exist. -/
def dfTable0 : Table DFMethod :=
  fun n => if n = "kurtosis" then some dfKurtosisMethod else none

/-- The `PandasQueryCompiler` class table before the notebook runs:
`kurtosis_custom` does not exist. -/
def qcTable0 : Table QCMethod := fun _ => none

/-- The session state after cells 4 and 5 have run. -/
def initState (g : Nat → Nat) : NBState :=
  ⟨frame_data g, df g, pandas_df g, qcTable0, dfTable0⟩

/-- Cell 11 of the notebook:
`PandasQueryCompiler.kurtosis_custom = Reduction.register(pandas.DataFrame.kurtosis)`. -/
def cell11 (s : NBState) : NBState :=
  { s with
    qcT := setAttr s.qcT "kurtosis_custom" (ReductionRegister pandas_DataFrame_kurtosis) }

/-- Cell 12 of the notebook: define `kurtosis_func` and install it as
`pd.DataFrame.kurtosis_custom`. -/
def cell12 (s : NBState) : NBState :=
  { s with dfT := setAttr s.dfT "kurtosis_custom" dfKurtosisCustomMethod }

/-- An observable event of a notebook cell: a dataframe aggregate being
invoked, a warning being emitted, a value being printed, or the elapsed
wall-clock message being printed with its seconds figure. -/
inductive Ev where
  | aggCall (name : String) : Ev
  | warn (msg : String) : Ev
  | printObj (o : ModinObj) : Ev
  | printSeries (s : PSeries) : Ev
  | printOptObj (o : Option ModinObj) : Ev
  | printTimeMsg (label : String) (secs : Rat) : Ev

/-- Whether an event is a dataframe aggregate invocation. -/
def Ev.isAggCall : Ev → Bool
  | .aggCall _ => true
  | _ => false

/-- Python `round(x, 4)`: round to 4 decimal places (ties modelled by
rounding to the nearest integer multiple of `1 / 10000`). -/
def round4 (q : Rat) : Rat := ((round (q * 10000) : Int) : Rat) / 10000

/-- Cell 6 of the notebook: read `time.time()`, invoke and print
`df.kurtosis()` (which warns and defaults to pandas), read `time.time()`
again, and print the elapsed seconds rounded to 4 places. -/
def cell6run (g : Nat → Nat) (clock : Nat → Rat) : List Ev :=
  let modin_start := clock 0
  let (ws, r) := dfKurtosisCall (df g)
  let modin_end := clock 1
  Ev.aggCall "kurtosis" :: ws.map Ev.warn ++
    [Ev.printObj r,
     Ev.printTimeMsg "Modin kurtosis took" (round4 (modin_end - modin_start))]

/-- Cell 7 of the notebook: read `time.time()`, invoke and print
`pandas_df.kurtosis()`, read `time.time()` again, and print the elapsed
seconds rounded to 4 places. -/
def cell7run (g : Nat → Nat) (clock : Nat → Rat) : List Ev :=
  let pandas_start := clock 0
  let r := pandas_DataFrame_kurtosis (pandas_df g) kurtDefaultArgs
  let pandas_end := clock 1
  [Ev.aggCall "kurtosis", Ev.printSeries r,
   Ev.printTimeMsg "pandas kurtosis took" (round4 (pandas_end - pandas_start))]

/-- Cell 13 of the notebook: after registration, time and print
`df.kurtosis()` again (still the default-to-pandas path); the elapsed
seconds are printed unrounded. -/
def cell13run (s : NBState) (clock : Nat → Rat) : List Ev :=
  let start := clock 0
  let r := match callMethod? s.dfT "kurtosis" s.qcT s.df ⟨none, none, none, none, []⟩ with
    | some cr => cr
    | none => ⟨[], none⟩
  let stop := clock 1
  Ev.aggCall "kurtosis" :: r.warnings.map Ev.warn ++
    [Ev.printOptObj r.value,
     Ev.printTimeMsg "Modin kurtosis took" (stop - start)]
where
  /-- Resolve a dataframe method in the class table and call it. -/
  callMethod? (t : Table DFMethod) (name : String) (qcT : Table QCMethod)
      (self : ModinDF) (kw : KW) : Option CallResult :=
    (t name).map (fun m => m qcT self kw)

/-- Cell 14 of the notebook: time and print `df.kurtosis_custom()` — the
registered wrapper — with the elapsed seconds printed unrounded. -/
def cell14run (s : NBState) (clock : Nat → Rat) : List Ev :=
  let start := clock 0
  let r := match cell13run.callMethod? s.dfT "kurtosis_custom" s.qcT s.df
      ⟨none, none, none, none, []⟩ with
    | some cr => cr
    | none => ⟨[], none⟩
  let stop := clock 1
  Ev.aggCall "kurtosis_custom" :: r.warnings.map Ev.warn ++
    [Ev.printOptObj r.value,
     Ev.printTimeMsg "Modin kurtosis_custom took" (stop - start)]

/-- The inputs cell 18 (the evaluation cell) reads: the learner's
`modin_mad` result, the two timing variables of cell 17, the baseline
`pandas_df`, and the clock whose readings bracket the baseline call. -/
structure EvalIn where
  modin_mad : ModinObj
  modin_mad_start : Rat
  modin_mad_end : Rat
  pandas_df : PandasDataFrame
  clock : Nat → Rat

/-- Cell 18 of the notebook, the evaluation cell:
time `pandas_mad = pandas_df.mad()`, then assert that `modin_mad` is a
distributed `pd.Series`, that the pandas timing exceeds the custom
timing, and that `modin_mad._to_pandas().equals(pandas_mad)`.  The three
asserts pass exactly when this returns `true`. -/
def evaluationCell (s : EvalIn) : Bool :=
  let pandas_mad_start := s.clock 0
  let pandas_mad := madDF s.pandas_df
  let pandas_mad_end := s.clock 1
  isSeriesB s.modin_mad
  && decide (pandas_mad_end - pandas_mad_start > s.modin_mad_end - s.modin_mad_start)
  && decide (toPandasSeries s.modin_mad = pandas_mad)

/-- The session state after the two registration cells have run. -/
def registeredState (g : Nat → Nat) : NBState :=
  cell12 (cell11 (initState g))

/-- A concrete 2-by-2 pandas baseline frame used to exercise the
evaluation cell on small data. -/
def sampleFrame : PandasDataFrame :=
  pandasOfArray
    ⟨2, 2, fun i j => if i = 0 then (if j = 0 then 1 else 10) else (if j = 0 then 3 else 30)⟩

/-- A concrete evaluation-cell input on which all three asserts pass:
a distributed series holding exactly the baseline's mean absolute
deviations, a custom timing of 1 second and a baseline timing of 10. -/
def sampleEval : EvalIn :=
  ⟨ModinObj.series (QCVal.ofSeries [("0", 1), ("1", 10)]), 0, 1, sampleFrame,
   fun n => if n = 0 then 0 else 10⟩

/-- C1: for the exercise's evaluation to pass, the custom distributed
mad result, materialized locally via `_to_pandas()`, must equal the
pandas baseline result `pandas_df.mad()` element-for-element. -/
theorem mad_equivalence_required_for_evaluation (s : EvalIn)
    (h : evaluationCell s = true) :
    toPandasSeries s.modin_mad = madDF s.pandas_df := by
  simp only [evaluationCell, Bool.and_eq_true, decide_eq_true_eq] at h
  exact h.2

/-- Witness for C1: the evaluation cell passes on `sampleEval`, and the
theorem yields the element-for-element equality there. -/
theorem mad_equivalence_required_for_evaluation_witness :
    evaluationCell sampleEval = true
    ∧ toPandasSeries sampleEval.modin_mad = madDF sampleEval.pandas_df := by
  have h : evaluationCell sampleEval = true := by
    norm_num [evaluationCell, sampleEval, sampleFrame, pandasOfArray, madDF, colVals,
      listMad, listMean, toPandasSeries, materializeSeries, isSeriesB, List.range_succ]
    exact ⟨rfl, rfl⟩
  exact ⟨h, mad_equivalence_required_for_evaluation sampleEval h⟩

/-- C4: for the exercise's evaluation to pass, `modin_mad` must be an
instance of the distributed series type `pd.Series`. -/
theorem evaluation_requires_distributed_series (s : EvalIn)
    (h : evaluationCell s = true) : isSeriesB s.modin_mad = true := by
  simp only [evaluationCell, Bool.and_eq_true, decide_eq_true_eq] at h
  exact h.1.1

/-- Witness for C4: the evaluation cell passes on `sampleEval`, whose
`modin_mad` is indeed a distributed series. -/
theorem evaluation_requires_distributed_series_witness :
    evaluationCell sampleEval = true ∧ isSeriesB sampleEval.modin_mad = true := by
  have h : evaluationCell sampleEval = true := by
    norm_num [evaluationCell, sampleEval, sampleFrame, pandasOfArray, madDF, colVals,
      listMad, listMean, toPandasSeries, materializeSeries, isSeriesB, List.range_succ]
    exact ⟨rfl, rfl⟩
  exact ⟨h, evaluation_requires_distributed_series sampleEval h⟩

/-- C5: for the exercise's evaluation to pass, the custom
implementation's measured wall-clock time must be strictly less than
the pandas baseline's measured wall-clock time. -/
theorem evaluation_requires_strictly_faster_custom (s : EvalIn)
    (h : evaluationCell s = true) :
    s.clock 1 - s.clock 0 > s.modin_mad_end - s.modin_mad_start := by
  simp only [evaluationCell, Bool.and_eq_true, decide_eq_true_eq] at h
  exact h.1.2

/-- Witness for C5: the evaluation cell passes on `sampleEval`, where
the baseline spent 10 seconds against the custom implementation's 1. -/
theorem evaluation_requires_strictly_faster_custom_witness :
    evaluationCell sampleEval = true
    ∧ sampleEval.clock 1 - sampleEval.clock 0
        > sampleEval.modin_mad_end - sampleEval.modin_mad_start := by
  have h : evaluationCell sampleEval = true := by
    norm_num [evaluationCell, sampleEval, sampleFrame, pandasOfArray, madDF, colVals,
      listMad, listMean, toPandasSeries, materializeSeries, isSeriesB, List.range_succ]
    exact ⟨rfl, rfl⟩
  exact ⟨h, evaluation_requires_strictly_faster_custom sampleEval h⟩

/-- C2: an aggregate lacking a native distributed implementation emits
exactly the `UserWarning` text
`` `DataFrame.<op>` defaulting to pandas implementation. `` and still
returns the pandas result through the fallback; in particular
`df.kurtosis()` warns with the kurtosis text and returns the pandas
kurtosis of the same data. -/
theorem default_to_pandas_warning_and_result (opName : String)
    (op : PandasDataFrame → PSeries) (self : ModinDF) :
    (defaultToPandas opName op self).1
      = ["`DataFrame." ++ opName ++ "` defaulting to pandas implementation."]
    ∧ toPandasSeries (defaultToPandas opName op self).2 = op self.to_pandas
    ∧ (dfKurtosisCall self).1
      = ["`DataFrame.kurtosis` defaulting to pandas implementation."]
    ∧ toPandasSeries (dfKurtosisCall self).2
      = pandas_DataFrame_kurtosis self.to_pandas kurtDefaultArgs :=
  ⟨rfl, rfl, rfl, rfl⟩

/-- C3: cell 11 associates the attribute `kurtosis_custom` on
`PandasQueryCompiler` with `Reduction.register(pandas.DataFrame.kurtosis)`,
and afterwards the attribute is invocable through any query-compiler
instance. -/
theorem kurtosis_custom_registration (s : NBState) :
    (cell11 s).qcT "kurtosis_custom"
      = some (ReductionRegister pandas_DataFrame_kurtosis)
    ∧ ∀ qc args, callMethod (cell11 s).qcT "kurtosis_custom" qc args
      = some (ReductionRegister pandas_DataFrame_kurtosis qc args) := by
  refine ⟨?_, fun qc args => ?_⟩ <;> simp [cell11, setAttr, callMethod]

/-- C6: the registered `kurtosis_func` wrapper passes `axis=0` to the
query compiler's `kurtosis_custom` when `axis` is `None`, forwards an
explicit axis and all other keyword arguments unchanged, and returns
the query-compiler result through `_reduce_dimension`, so any returned
value is a distributed series. -/
theorem kurtosis_func_forwarding (t : Table QCMethod) (self : ModinDF)
    (sk : Option Bool) (lv : Option Nat) (nq : Option Bool)
    (kw : List (String × String)) :
    kurtosis_func t self none sk lv nq kw
      = (callMethod t "kurtosis_custom" self.qc ⟨0, sk, lv, nq, kw⟩).map
          self.reduce_dimension
    ∧ (∀ a : Nat, kurtosis_func t self (some a) sk lv nq kw
      = (callMethod t "kurtosis_custom" self.qc ⟨a, sk, lv, nq, kw⟩).map
          self.reduce_dimension)
    ∧ ∀ ax : Option Nat, (kurtosis_func t self ax sk lv nq kw).all isSeriesB = true := by
  refine ⟨?_, fun a => ?_, fun ax => ?_⟩
  · cases h : t "kurtosis_custom" <;>
      simp [kurtosis_func, callMethod, h]
  · cases h : t "kurtosis_custom" <;>
      simp [kurtosis_func, callMethod, h]
  · cases ax <;> cases h : t "kurtosis_custom" <;>
      simp [kurtosis_func, callMethod, h, ModinDF.reduce_dimension, isSeriesB]

/-- C7: the timing fixture is a `2^18`-row by `2^8`-column table of
integers drawn from `[0, 100)`, and every column label of both the
Modin dataframe and the pandas baseline carries the `col` label text in
front. -/
theorem timing_fixture_shape_range_labels (g : Nat → Nat) :
    (frame_data g).rows = 2 ^ 18
    ∧ (frame_data g).cols = 2 ^ 8
    ∧ (∀ i j, (frame_data g).entry i j < 100)
    ∧ (∀ j, ∃ s, ((df g).to_pandas).colLabel j = "col" ++ s)
    ∧ (∀ j, ∃ s, (pandas_df g).colLabel j = "col" ++ s) := by
  refine ⟨rfl, rfl, fun i j => ?_, fun j => ⟨toString j, rfl⟩,
    fun j => ⟨toString j, rfl⟩⟩
  simp only [frame_data, npRandint]
  omega

/-- C8: each timing cell invokes exactly one dataframe aggregate,
prints its result, and then prints the elapsed time as the difference
of the two `time.time()` readings bracketing the call; the first
fallback-demonstration pair rounds the elapsed seconds to 4 decimal
places, the post-registration pair prints them unrounded. -/
theorem timing_cells_trace (g : Nat → Nat) (c : Nat → Rat) :
    ((cell6run g c).countP Ev.isAggCall = 1
      ∧ cell6run g c
        = [Ev.aggCall "kurtosis",
           Ev.warn "`DataFrame.kurtosis` defaulting to pandas implementation.",
           Ev.printObj (dfKurtosisCall (df g)).2,
           Ev.printTimeMsg "Modin kurtosis took" (round4 (c 1 - c 0))])
    ∧ ((cell7run g c).countP Ev.isAggCall = 1
      ∧ cell7run g c
        = [Ev.aggCall "kurtosis",
           Ev.printSeries (pandas_DataFrame_kurtosis (pandas_df g) kurtDefaultArgs),
           Ev.printTimeMsg "pandas kurtosis took" (round4 (c 1 - c 0))])
    ∧ ((cell13run (registeredState g) c).countP Ev.isAggCall = 1
      ∧ cell13run (registeredState g) c
        = [Ev.aggCall "kurtosis",
           Ev.warn "`DataFrame.kurtosis` defaulting to pandas implementation.",
           Ev.printOptObj (some (dfKurtosisCall (df g)).2),
           Ev.printTimeMsg "Modin kurtosis took" (c 1 - c 0)])
    ∧ ((cell14run (registeredState g) c).countP Ev.isAggCall = 1
      ∧ cell14run (registeredState g) c
        = [Ev.aggCall "kurtosis_custom",
           Ev.printOptObj
             (kurtosis_func (registeredState g).qcT (df g) none none none none []),
           Ev.printTimeMsg "Modin kurtosis_custom took" (c 1 - c 0)]) := by
  exact ⟨⟨rfl, rfl⟩, ⟨rfl, rfl⟩, ⟨rfl, rfl⟩, ⟨rfl, rfl⟩⟩

/-- C9: the registration cells modify only the `kurtosis_custom`
attribute of either class; every other attribute is untouched, and
after registration `DataFrame.kurtosis` still resolves to the original
default-to-pandas implementation. -/
theorem registration_preserves_other_attributes (s : NBState) (n : String)
    (hn : n ≠ "kurtosis_custom") :
    ((cell12 (cell11 s)).qcT n = s.qcT n
      ∧ (cell12 (cell11 s)).dfT n = s.dfT n)
    ∧ ∀ g : Nat → Nat,
        (cell12 (cell11 (initState g))).dfT "kurtosis" = some dfKurtosisMethod := by
  refine ⟨⟨?_, ?_⟩, fun g => ?_⟩
  · simp [cell11, cell12, setAttr, hn]
  · simp [cell11, cell12, setAttr, hn]
  · simp [cell11, cell12, initState, setAttr, dfTable0]

/-- Witness for C9: instantiated at the attribute name `kurtosis` over
the initial session state. -/
theorem registration_preserves_other_attributes_witness :
    "kurtosis" ≠ "kurtosis_custom"
    ∧ (((cell12 (cell11 (initState fun _ => 0))).qcT "kurtosis"
          = (initState fun _ => 0).qcT "kurtosis"
        ∧ (cell12 (cell11 (initState fun _ => 0))).dfT "kurtosis"
          = (initState fun _ => 0).dfT "kurtosis")
      ∧ ∀ g : Nat → Nat,
          (cell12 (cell11 (initState g))).dfT "kurtosis" = some dfKurtosisMethod) :=
  ⟨by decide,
   registration_preserves_other_attributes (initState fun _ => 0) "kurtosis" (by decide)⟩

/-- C10: the Modin dataframe and the pandas baseline are built from the
same `frame_data` with the same `col`-labelled columns — materializing
the Modin dataframe gives exactly the baseline — the registration cells
leave `frame_data`, `df` and `pandas_df` untouched, and hence every
baseline-versus-distributed comparison operates on identical input
data. -/
theorem same_input_data_for_comparisons (g : Nat → Nat) :
    (df g).to_pandas = pandas_df g
    ∧ ((df g).to_pandas).values = frame_data g
    ∧ (pandas_df g).values = frame_data g
    ∧ (∀ s : NBState, (cell12 (cell11 s)).frame_data = s.frame_data
        ∧ (cell12 (cell11 s)).df = s.df
        ∧ (cell12 (cell11 s)).pandas_df = s.pandas_df)
    ∧ madDF ((df g).to_pandas) = madDF (pandas_df g)
    ∧ pandas_DataFrame_kurtosis ((df g).to_pandas) kurtDefaultArgs
        = pandas_DataFrame_kurtosis (pandas_df g) kurtDefaultArgs :=
  ⟨rfl, rfl, rfl, fun _ => ⟨rfl, rfl, rfl⟩, rfl, rfl⟩

end Exercise3
